import Mathlib

/-!
Verification of the real-time stroke synchronisation core of the
Collaborative-Canvas repository.

The definitions below are a shallow embedding, translated directly from
the TypeScript source:
  * `HookState` and the `on…Hook` handlers embed the broadcast handlers of
    `useRealtimeCollaboration` (src/unnamed/part_001);
  * `BoardState` and `sendPartialStroke` / `startDrawing` / `draw` /
    `endDrawing` and the `run…Effect` functions embed the second
    `CanvasBoard` variant of src/app/components/CanvasBoard.tsx
    (the variant with `disabled` and `isEraser` support, the one the
    canvas-demo page mounts);
  * `ConnState` / `sendCursorPosition` embed the connection bookkeeping of
    the hook; `PageState` / `clearCanvasPage` embed the canvas-demo page
    (src/app/canvas-demo/page.tsx);
  * `CtxState` and the `…Cmds` lists embed, at the level of the 2d-context
    compositing state, the three paint sites of `CanvasBoard`.

Machine numbers of the source (timestamps, sequence numbers, intervals)
are modelled as `Int`; none of the claims depends on floating point, so
coordinates are `Int` as well.  The DOM canvas is modelled as the list of
paint operations issued to it (`paintEvents`), and React state updates as
pure state transformers: within one delivered broadcast event all queued
`setState` calls are applied and then the effects whose dependency arrays
changed are run, in declaration order, which matches React's batched
commit-then-effects order for these handlers.
-/

/-- Line cap styles, `CanvasLineCap` in the source. -/
inductive LineCap
  | butt
  | round
  | square
deriving DecidableEq

/-- A surface-relative point.  The claims never compute on coordinates, so
integer coordinates suffice. -/
structure Point where
  x : Int
  y : Int
deriving DecidableEq

/-- A completed stroke (interface `Stroke` of CanvasBoard.tsx).  The
optional TypeScript field `isEraser?` is read through `|| false` by every
consumer, so it is modelled as a plain `Bool`. -/
structure Stroke where
  id : String
  points : List Point
  brushColor : String
  brushSize : Int
  lineCap : LineCap
  userId : String
  isEraser : Bool
deriving DecidableEq

/-- An in-progress stroke snapshot (interface `PartialStroke` of
CanvasBoard.tsx). -/
structure PartialStroke where
  strokeId : String
  points : List Point
  brushColor : String
  brushSize : Int
  lineCap : LineCap
  userId : String
  timestamp : Int
  sequence : Int
  isEraser : Bool
deriving DecidableEq

/-- Connection status of the realtime channel (`ConnectionStatus` in
src/unnamed/part_001). -/
inductive ConnectionStatus
  | connecting
  | connected
  | disconnected
deriving DecidableEq

/-- State held by the `useRealtimeCollaboration` hook that the broadcast
handlers mutate.  `processedPartialStrokeIds` is the `Set<string>` of
update ids; it is modelled as a list queried through `contains`. -/
structure HookState where
  remoteStrokes : List Stroke
  remotePartialStrokes : List PartialStroke
  processedPartialStrokeIds : List String
deriving DecidableEq

/-- The update id the hook builds for a partial stroke:
`` `${partialStroke.strokeId}-${partialStroke.sequence}` ``. -/
def updateIdOf (ps : PartialStroke) : String :=
  ps.strokeId ++ "-" ++ toString ps.sequence

/-- The broadcast `partialStroke` handler of `useRealtimeCollaboration`
(src/unnamed/part_001 lines 198-217): skip if the update id was already
processed, otherwise record the id, append to the buffer and cap the
buffer at the last 100 entries. -/
def onPartialStrokeHook (st : HookState) (ps : PartialStroke) : HookState :=
  let uid := updateIdOf ps
  if st.processedPartialStrokeIds.contains uid then st
  else
    let newStrokes := st.remotePartialStrokes ++ [ps]
    let capped :=
      if 100 < newStrokes.length then newStrokes.drop (newStrokes.length - 100)
      else newStrokes
    { st with
        processedPartialStrokeIds := st.processedPartialStrokeIds ++ [uid]
        remotePartialStrokes := capped }

/-- The broadcast `stroke` handler of `useRealtimeCollaboration`
(src/unnamed/part_001 lines 219-227): append the completed stroke
unconditionally and drop every buffered partial with that stroke id.
Note that neither `processedPartialStrokeIds` nor the board's
`highestSequence` map is touched here. -/
def onCompleteStrokeHook (st : HookState) (s : Stroke) : HookState :=
  { st with
      remoteStrokes := st.remoteStrokes ++ [s]
      remotePartialStrokes :=
        st.remotePartialStrokes.filter (fun ps => ps.strokeId ≠ s.id) }

/-- One paint operation issued to the drawing canvas. -/
inductive PaintEvent
  | remoteStrokePaint (s : Stroke)
  | partialPaint (ps : PartialStroke)
  | localSegment (p q : Point) (isEraser : Bool)
deriving DecidableEq

/-- Models the JavaScript expression
`highestSequence.current.get(strokeId) || -1` (CanvasBoard.tsx line 660):
both `undefined` and `0` are falsy, so a stored value of `0` yields `-1`. -/
def jsOrNegOne : Option Int → Int
  | none => -1
  | some v => if v = 0 then -1 else v

/-- `Map.set` semantics restricted to what the code observes through
`get`: replace any existing binding for the key. -/
def mapSet (m : List (String × Int)) (k : String) (v : Int) :
    List (String × Int) :=
  (k, v) :: m.filter (fun e => e.1 != k)

/-- State of the mounted `CanvasBoard` component (second variant of
CanvasBoard.tsx).  `paintEvents` is the pixel state of the drawing
canvas, recorded as the list of paint operations; `emittedStrokes` logs
the complete strokes handed to `onStrokeComplete`.  The component's
`processedPartialStrokeIds` set, `recentClearOperation` and
`lastKnownStrokeCount` refs are written but never read by any behaviour
the claims mention, so they are omitted. -/
structure BoardState where
  userId : String
  disabled : Bool
  isEraser : Bool
  brushColor : String
  brushSize : Int
  lineCap : LineCap
  syncInterval : Int
  isDrawing : Bool
  lastPosition : Point
  currentStroke : List Point
  currentStrokeId : String
  sequenceNumber : Int
  lastPartialStrokeSentTime : Int
  highestSequence : List (String × Int)
  paintEvents : List PaintEvent
  emittedStrokes : List Stroke
deriving DecidableEq

/-- Processing of one received partial stroke by the remote-partial
effect of `CanvasBoard` (CanvasBoard.tsx lines 653-695): skip own
strokes; reject sequences not above the recorded highest (with the
`|| -1` coercion); otherwise record the new highest and paint the path,
but only when it has at least two points. -/
def applyRemotePartialStroke (b : BoardState) (ps : PartialStroke) :
    BoardState :=
  if ps.userId = b.userId then b
  else
    let currentHighestSeq := jsOrNegOne (b.highestSequence.lookup ps.strokeId)
    if ps.sequence ≤ currentHighestSeq then b
    else
      let b1 := { b with
        highestSequence := mapSet b.highestSequence ps.strokeId ps.sequence }
      if 2 ≤ ps.points.length then
        { b1 with paintEvents := b1.paintEvents ++ [PaintEvent.partialPaint ps] }
      else b1

/-- The remote-partial effect (CanvasBoard.tsx lines 643-696): returns
early on an empty buffer, otherwise iterates over every buffered partial
stroke with `forEach`. -/
def runPartialStrokesEffect (b : BoardState) (buffer : List PartialStroke) :
    BoardState :=
  if buffer.isEmpty then b else buffer.foldl applyRemotePartialStroke b

/-- The remote-stroke effect (CanvasBoard.tsx lines 601-640): returns
early on an empty list, otherwise paints only the most recent remote
stroke, and only when it has at least one point. -/
def runRemoteStrokesEffect (b : BoardState) (strokes : List Stroke) :
    BoardState :=
  match strokes.getLast? with
  | none => b
  | some s =>
    if 0 < s.points.length then
      { b with paintEvents := b.paintEvents ++ [PaintEvent.remoteStrokePaint s] }
    else b

/-- Default of the `syncInterval` prop of `CanvasBoard` (and of the
page's `syncInterval` state): 50 ms. -/
def defaultSyncInterval : Int := 50

/-- `sendPartialStroke` of `CanvasBoard` (CanvasBoard.tsx lines 874-897)
as mounted by the page (so `onPartialStroke` is present).  Returns the
updated component state and the snapshot handed to the callback, if any.
The guards and the throttle are checked in source order; on emission both
refs are written before the snapshot is built, so the snapshot carries
`sequence = sequenceNumber + 1` and the full current point list. -/
def sendPartialStroke (b : BoardState) (now : Int) :
    BoardState × Option PartialStroke :=
  if ¬ b.isDrawing ∨ b.currentStroke.length < 2 then (b, none)
  else if now - b.lastPartialStrokeSentTime < b.syncInterval then (b, none)
  else
    let seq := b.sequenceNumber + 1
    let ps : PartialStroke :=
      { strokeId := b.currentStrokeId
        points := b.currentStroke
        brushColor := b.brushColor
        brushSize := b.brushSize
        lineCap := b.lineCap
        userId := b.userId
        timestamp := now
        sequence := seq
        isEraser := b.isEraser }
    ({ b with lastPartialStrokeSentTime := now, sequenceNumber := seq }, some ps)

/-- `startDrawing` of `CanvasBoard` (CanvasBoard.tsx lines 899-927).
`now` stands for `Date.now()`.  When disabled the handler only forwards
the cursor move (not part of this state). -/
def startDrawing (b : BoardState) (now : Int) (coord : Point) : BoardState :=
  if b.disabled then b
  else
    { b with
        currentStrokeId := b.userId ++ "-" ++ toString now
        sequenceNumber := 0
        lastPosition := coord
        isDrawing := true
        currentStroke := [coord] }

/-- `draw` of `CanvasBoard` (CanvasBoard.tsx lines 929-975): paint the
incremental segment with the mode chosen from `isEraser`, then queue the
state updates and invoke `sendPartialStroke`.  `sendPartialStroke` is the
`useCallback` of the current render, so it reads `currentStroke` *before*
the appended coordinate (the `setCurrentStroke` update is not yet
visible to it), while the two refs it writes are shared. -/
def draw (b : BoardState) (now : Int) (coord : Point) :
    BoardState × Option PartialStroke :=
  if b.disabled ∨ ¬ b.isDrawing then (b, none)
  else
    let b1 := { b with
      paintEvents :=
        b.paintEvents ++ [PaintEvent.localSegment b.lastPosition coord b.isEraser]
      lastPosition := coord }
    let r := sendPartialStroke b1 now
    ({ r.1 with currentStroke := b.currentStroke ++ [coord] }, r.2)

/-- `endDrawing` of `CanvasBoard` (CanvasBoard.tsx lines 977-997): if a
gesture with more than one point is open, emit the complete stroke;
always return to the idle state. -/
def endDrawing (b : BoardState) : BoardState × Option Stroke :=
  if ¬ b.isDrawing ∨ b.disabled then (b, none)
  else if 1 < b.currentStroke.length then
    let s : Stroke :=
      { id := b.currentStrokeId
        points := b.currentStroke
        brushColor := b.brushColor
        brushSize := b.brushSize
        lineCap := b.lineCap
        userId := b.userId
        isEraser := b.isEraser }
    ({ b with
        isDrawing := false
        currentStroke := []
        emittedStrokes := b.emittedStrokes ++ [s] }, some s)
  else ({ b with isDrawing := false, currentStroke := [] }, none)

/-- Initial hook state: all collections empty. -/
def initHook : HookState :=
  { remoteStrokes := [], remotePartialStrokes := [], processedPartialStrokeIds := [] }

/-- Initial board state for a given local user id, using the source's
default props and initial ref/state values. -/
def initBoard (uid : String) : BoardState :=
  { userId := uid
    disabled := false
    isEraser := false
    brushColor := "#000000"
    brushSize := 3
    lineCap := LineCap.round
    syncInterval := defaultSyncInterval
    isDrawing := false
    lastPosition := { x := 0, y := 0 }
    currentStroke := []
    currentStrokeId := ""
    sequenceNumber := 0
    lastPartialStrokeSentTime := 0
    highestSequence := []
    paintEvents := []
    emittedStrokes := [] }

/-- Combined receiver state: the hook plus the mounted board. -/
structure SysState where
  hook : HookState
  board : BoardState
deriving DecidableEq

/-- A broadcast event delivered by the transport to this client. -/
inductive NetEvent
  | partialStrokeEvt (ps : PartialStroke)
  | strokeEvt (s : Stroke)
  | clearEvt

/-- Delivery of one broadcast event to the receiver pipeline: the hook
handler runs, then the board effects whose dependencies changed re-run
over the new props (React batches the handler's `setState` calls and
runs effects in declaration order).

* `partialStroke`: when the update id is already processed the handler
  returns before any `setState`, so nothing re-renders; otherwise the
  remote-partial effect re-runs over the whole new buffer.
* `stroke`: both `remoteStrokes` and `remotePartialStrokes` are replaced
  by fresh arrays, so the remote-stroke effect and then the
  remote-partial effect re-run.
* `clear`: the hook empties both collections and the processed-id set
  and calls `window.notifyCanvasClearEvent`, which sets
  `receivedClearEvent`; the board effect at CanvasBoard.tsx lines
  789-801 then sees an empty `remoteStrokes`, runs `clearCanvasFunc`
  (clear the canvas, reset `highestSequence`) and aborts an open local
  gesture without calling `onStrokeComplete`.  The two paint effects
  re-run on empty inputs and do nothing. -/
def deliver (sys : SysState) : NetEvent → SysState
  | NetEvent.partialStrokeEvt ps =>
    if sys.hook.processedPartialStrokeIds.contains (updateIdOf ps) then sys
    else
      let hook := onPartialStrokeHook sys.hook ps
      let board := runPartialStrokesEffect sys.board hook.remotePartialStrokes
      { hook := hook, board := board }
  | NetEvent.strokeEvt s =>
    let hook := onCompleteStrokeHook sys.hook s
    let board := runRemoteStrokesEffect sys.board hook.remoteStrokes
    let board := runPartialStrokesEffect board hook.remotePartialStrokes
    { hook := hook, board := board }
  | NetEvent.clearEvt =>
    let hook : HookState :=
      { remoteStrokes := [], remotePartialStrokes := [], processedPartialStrokeIds := [] }
    let board := { sys.board with
      paintEvents := []
      highestSequence := []
      isDrawing := false
      currentStroke := [] }
    { hook := hook, board := board }

/-- Initial combined receiver state. -/
def initSys (uid : String) : SysState :=
  { hook := initHook, board := initBoard uid }

/-- A cursor position report (interface `CursorPosition`; the username
and colour that `sendCursorPosition` merges into the payload do not
affect any claim and are omitted from the payload model). -/
structure CursorPosition where
  x : Int
  y : Int
  userId : String
deriving DecidableEq

/-- Connection bookkeeping of `useRealtimeCollaboration`: the
`isConnected` flag, the `connectionStatus` state, the cursor-throttle
ref and the configured cursor interval.  The `channel` object is non-null
whenever `isConnected` is true, so it is not modelled separately. -/
structure ConnState where
  isConnected : Bool
  connectionStatus : ConnectionStatus
  lastCursorSentTime : Int
  cursorSyncInterval : Int
deriving DecidableEq

/-- Initial connection state: `useState(false)`, `useState('connecting')`,
`useRef(0)` and the default 50 ms cursor interval. -/
def initConnState : ConnState :=
  { isConnected := false
    connectionStatus := ConnectionStatus.connecting
    lastCursorSentTime := 0
    cursorSyncInterval := 50 }

/-- Connection events the hook reacts to (src/unnamed/part_001):
`SUBSCRIBED` sets both the flag and the status; `CHANNEL_ERROR` sets only
the status to `disconnected`, leaving `isConnected` untouched;
`reconnect()` sets the status back to `connecting`. -/
inductive ConnEvent
  | subscribed
  | channelError
  | reconnectRequested

/-- One connection transition, from the `subscribe` status callback and
the `reconnect` callback of the hook. -/
def connStep (c : ConnState) : ConnEvent → ConnState
  | ConnEvent.subscribed =>
    { c with isConnected := true, connectionStatus := ConnectionStatus.connected }
  | ConnEvent.channelError =>
    { c with connectionStatus := ConnectionStatus.disconnected }
  | ConnEvent.reconnectRequested =>
    { c with connectionStatus := ConnectionStatus.connecting }

/-- The connection state reached from the initial state by a list of
connection events. -/
def connReach (evs : List ConnEvent) : ConnState :=
  evs.foldl connStep initConnState

/-- `sendCursorPosition` of the hook (src/unnamed/part_001 lines
324-341): guarded by `channel && isConnected`; sends only when
`now - lastCursorSentTimeRef.current > currentCursorSyncInterval`
(strictly greater), updating the ref on send. -/
def sendCursorPosition (c : ConnState) (now : Int) (pos : CursorPosition) :
    ConnState × Option CursorPosition :=
  if c.isConnected then
    if c.cursorSyncInterval < now - c.lastCursorSentTime then
      ({ c with lastCursorSentTime := now }, some pos)
    else (c, none)
  else (c, none)

/-- The distinct side effects `clearCanvas` of the canvas-demo page can
perform: the local board clear through the ref, the reset of the hook's
partial-stroke buffer and processed-id set, the broadcast of the clear
event, and the persistence delete. -/
inductive ClearAction
  | localClear
  | clearRemotePartials
  | broadcastClear
  | dbDelete
deriving DecidableEq

/-- State of the canvas-demo page relevant to the clear guard: the
connection fields surfaced by the hook, the `justCleared` grace flag, and
a log of the clear side effects performed so far. -/
structure PageState where
  connectionStatus : ConnectionStatus
  isConnected : Bool
  justCleared : Bool
  clearActions : List ClearAction
deriving DecidableEq

/-- `isCanvasDisabled` of the page (page.tsx line 89):
`connectionStatus !== 'connected' && !justCleared`. -/
def isCanvasDisabled (p : PageState) : Bool :=
  decide (p.connectionStatus ≠ ConnectionStatus.connected) && !p.justCleared

/-- `clearCanvas` of the page (page.tsx lines 115-132): return early when
the canvas is disabled; otherwise clear the board through the ref, reset
the hook's partial-stroke tracking, set the grace flag, and call
`sendClearCanvas` — which broadcasts and issues the persistence delete
only under its own `channel && isConnected` guard
(src/unnamed/part_001 lines 376-391). -/
def clearCanvasPage (p : PageState) : PageState :=
  if isCanvasDisabled p then p
  else
    { p with
        justCleared := true
        clearActions := p.clearActions
          ++ [ClearAction.localClear, ClearAction.clearRemotePartials]
          ++ (if p.isConnected then [ClearAction.broadcastClear, ClearAction.dbDelete]
              else []) }

/-- Page-level events: the hook's connection transitions, a press of the
clear button, and the arrival of remote strokes (which resets the grace
flag, page.tsx lines 103-107). -/
inductive PageEvent
  | subscribed
  | channelError
  | reconnectRequested
  | clearPressed
  | strokesArrived

/-- One page transition. -/
def pageStep (p : PageState) : PageEvent → PageState
  | PageEvent.subscribed =>
    { p with connectionStatus := ConnectionStatus.connected, isConnected := true }
  | PageEvent.channelError =>
    { p with connectionStatus := ConnectionStatus.disconnected }
  | PageEvent.reconnectRequested =>
    { p with connectionStatus := ConnectionStatus.connecting }
  | PageEvent.clearPressed => clearCanvasPage p
  | PageEvent.strokesArrived => { p with justCleared := false }

/-- Initial page state. -/
def initPageState : PageState :=
  { connectionStatus := ConnectionStatus.connecting
    isConnected := false
    justCleared := false
    clearActions := [] }

/-- The page state reached from the initial state by a list of events. -/
def pageReach (evs : List PageEvent) : PageState :=
  evs.foldl pageStep initPageState

/-- The two compositing modes the source uses:
`source-over` (brush) and `destination-out` (eraser). -/
inductive CompOp
  | sourceOver
  | destinationOut
deriving DecidableEq

/-- The compositing mode a paint site selects from an `isEraser` flag. -/
def opOfEraser (isEraser : Bool) : CompOp :=
  if isEraser then CompOp.destinationOut else CompOp.sourceOver

/-- The 2d-context state the compositing claims are about: the current
`globalCompositeOperation`, the `save`/`restore` stack (restricted to the
mode, the only saved attribute the claims mention), and the mode in
effect at each `ctx.stroke()` call issued so far. -/
structure CtxState where
  op : CompOp
  stack : List CompOp
  painted : List CompOp
deriving DecidableEq

/-- The context commands the paint sites issue that touch the compositing
state. -/
inductive CtxCmd
  | saveCmd
  | setOp (o : CompOp)
  | strokeCmd
  | restoreCmd

/-- Execution of one context command.  `restore` on an empty stack is a
no-op, as on the DOM canvas. -/
def execCmd (c : CtxState) : CtxCmd → CtxState
  | CtxCmd.saveCmd => { c with stack := c.op :: c.stack }
  | CtxCmd.setOp o => { c with op := o }
  | CtxCmd.strokeCmd => { c with painted := c.painted ++ [c.op] }
  | CtxCmd.restoreCmd =>
    match c.stack with
    | [] => c
    | o :: rest => { c with op := o, stack := rest }

/-- Execution of a command list. -/
def execCmds (c : CtxState) (cmds : List CtxCmd) : CtxState :=
  cmds.foldl execCmd c

/-- Compositing-relevant commands of the remote-stroke effect
(CanvasBoard.tsx lines 615-638): `save`, set the mode from `isEraser`,
`stroke`, `restore`. -/
def remoteStrokeCmds (isEraser : Bool) : List CtxCmd :=
  [CtxCmd.saveCmd, CtxCmd.setOp (opOfEraser isEraser), CtxCmd.strokeCmd,
   CtxCmd.restoreCmd]

/-- Compositing-relevant commands of the remote-partial effect
(CanvasBoard.tsx lines 668-693): same scoped shape. -/
def remotePartialCmds (isEraser : Bool) : List CtxCmd :=
  [CtxCmd.saveCmd, CtxCmd.setOp (opOfEraser isEraser), CtxCmd.strokeCmd,
   CtxCmd.restoreCmd]

/-- Compositing-relevant commands of the local `draw` handler
(CanvasBoard.tsx lines 952-968): the mode is set from `isEraser` and the
segment stroked, with no `save`/`restore` around it. -/
def localDrawCmds (isEraser : Bool) : List CtxCmd :=
  [CtxCmd.setOp (opOfEraser isEraser), CtxCmd.strokeCmd]

/-- One stroke-painting occurrence, tagged with the site that paints it
and its own `isEraser` flag. -/
inductive PaintSite
  | remoteStrokeSite (isEraser : Bool)
  | remotePartialSite (isEraser : Bool)
  | localSegmentSite (isEraser : Bool)

/-- The commands a paint site issues. -/
def siteCmds : PaintSite → List CtxCmd
  | PaintSite.remoteStrokeSite e => remoteStrokeCmds e
  | PaintSite.remotePartialSite e => remotePartialCmds e
  | PaintSite.localSegmentSite e => localDrawCmds e

/-- The mode a paint site should paint with, per its own `isEraser`. -/
def siteOp : PaintSite → CompOp
  | PaintSite.remoteStrokeSite e => opOfEraser e
  | PaintSite.remotePartialSite e => opOfEraser e
  | PaintSite.localSegmentSite e => opOfEraser e

/-- Painting a sequence of strokes, one site after another. -/
def runSites (c : CtxState) (sites : List PaintSite) : CtxState :=
  sites.foldl (fun st s => execCmds st (siteCmds s)) c

/-- A fresh 2d context: default mode `source-over`, empty stack, nothing
painted. -/
def initCtx : CtxState :=
  { op := CompOp.sourceOver, stack := [], painted := [] }

/-! Concrete sample data used by several of the witness and
counterexample theorems below. -/

/-- A two-point partial stroke for id `r-1` with sequence 1, sent by the
remote user `r`. -/
def psSampleA : PartialStroke :=
  { strokeId := "r-1"
    points := [{ x := 0, y := 0 }, { x := 1, y := 1 }]
    brushColor := "#000000"
    brushSize := 3
    lineCap := LineCap.round
    userId := "r"
    timestamp := 10
    sequence := 1
    isEraser := false }

/-- A later three-point snapshot of the same stroke, sequence 2. -/
def psSampleB : PartialStroke :=
  { psSampleA with
      points := [{ x := 0, y := 0 }, { x := 1, y := 1 }, { x := 2, y := 2 }]
      timestamp := 20
      sequence := 2 }

/-- The same snapshot as `psSampleA` but carrying sequence 0. -/
def psSampleZero : PartialStroke := { psSampleA with sequence := 0 }

/-- A partial stroke for a different id, `r-9`. -/
def psSampleOther : PartialStroke := { psSampleA with strokeId := "r-9" }

/-- A one-point partial stroke for id `r-1`, sequence 1. -/
def psOnePoint : PartialStroke := { psSampleA with points := [{ x := 5, y := 5 }] }

/-- The completed stroke with id `r-1`. -/
def strokeSample : Stroke :=
  { id := "r-1"
    points := [{ x := 0, y := 0 }, { x := 1, y := 1 }, { x := 2, y := 2 }]
    brushColor := "#000000"
    brushSize := 3
    lineCap := LineCap.round
    userId := "r"
    isEraser := false }

/-- A local board mid-gesture: two points accumulated, throttle ref still
at its initial 0. -/
def sampleDrawingBoard : BoardState :=
  { initBoard "u" with
      isDrawing := true
      currentStroke := [{ x := 0, y := 0 }, { x := 1, y := 1 }]
      currentStrokeId := "u-100" }

/-- The snapshot `sendPartialStroke sampleDrawingBoard 50` emits. -/
def emittedSample : PartialStroke :=
  { strokeId := "u-100"
    points := [{ x := 0, y := 0 }, { x := 1, y := 1 }]
    brushColor := "#000000"
    brushSize := 3
    lineCap := LineCap.round
    userId := "u"
    timestamp := 50
    sequence := 1
    isEraser := false }

/-! Helper lemmas shared between claim theorems. -/

/-- After the `stroke` handler runs, no buffered partial carries the
completed stroke's id. -/
theorem mem_onCompleteStrokeHook_strokeId (st : HookState) (s : Stroke)
    (ps : PartialStroke)
    (h : ps ∈ (onCompleteStrokeHook st s).remotePartialStrokes) :
    ps.strokeId ≠ s.id := by
  simp only [onCompleteStrokeHook, List.mem_filter, decide_eq_true_eq] at h
  exact h.2

/-- A partial stroke whose update id was already processed is ignored by
the whole receiver pipeline: no handler state changes and no effect
re-runs. -/
theorem deliver_duplicate_update_id (sys : SysState) (ps : PartialStroke)
    (h : sys.hook.processedPartialStrokeIds.contains (updateIdOf ps) = true) :
    deliver sys (NetEvent.partialStrokeEvt ps) = sys := by
  simp only [deliver]
  exact if_pos h

/-- Helper: `applyRemotePartialStroke` written as a single conditional
with the let-bindings of the definition expanded. -/
theorem applyRemotePartialStroke_eq (b : BoardState) (ps : PartialStroke) :
    applyRemotePartialStroke b ps =
      if ps.userId = b.userId then b
      else if ps.sequence ≤ jsOrNegOne (b.highestSequence.lookup ps.strokeId)
      then b
      else if 2 ≤ ps.points.length then
        { b with
            highestSequence := mapSet b.highestSequence ps.strokeId ps.sequence
            paintEvents := b.paintEvents ++ [PaintEvent.partialPaint ps] }
      else
        { b with
            highestSequence :=
              mapSet b.highestSequence ps.strokeId ps.sequence } := rfl

/-- A partial stroke whose sequence does not exceed the recorded highest
(after the `|| -1` coercion) leaves the board untouched. -/
theorem applyRemotePartialStroke_stale (b : BoardState) (ps : PartialStroke)
    (h : ps.sequence ≤ jsOrNegOne (b.highestSequence.lookup ps.strokeId)) :
    applyRemotePartialStroke b ps = b := by
  rw [applyRemotePartialStroke_eq]
  split_ifs <;> rfl

/-! ## Claim C1 -/

/-- Claim C1 as stated is false: after the complete stroke `strokeSample`
(id `r-1`) has been applied, the delivered partial `psSampleB` for the
same id with the higher sequence 2 is accepted — it lands in the
partial-stroke buffer and is painted on the canvas. -/
theorem completion_not_terminal_cex :
    psSampleB.strokeId = strokeSample.id ∧
    (deliver (deliver (deliver (initSys "local")
        (NetEvent.partialStrokeEvt psSampleA))
        (NetEvent.strokeEvt strokeSample))
        (NetEvent.partialStrokeEvt psSampleB)).hook.remotePartialStrokes
      = [psSampleB] ∧
    (deliver (deliver (deliver (initSys "local")
        (NetEvent.partialStrokeEvt psSampleA))
        (NetEvent.strokeEvt strokeSample))
        (NetEvent.partialStrokeEvt psSampleB)).board.paintEvents
      = (deliver (deliver (initSys "local")
          (NetEvent.partialStrokeEvt psSampleA))
          (NetEvent.strokeEvt strokeSample)).board.paintEvents
        ++ [PaintEvent.partialPaint psSampleB] := by
  decide

/-- Claim C1 amended: applying a complete stroke removes every buffered
partial for its id, a redelivered partial whose update id was already
processed leaves the receiver unchanged, and a partial whose sequence
does not exceed the recorded highest has no effect on the board; but a
partial for a completed id with a strictly larger sequence is accepted
again — completion is not terminal. -/
theorem completion_cleanup_and_dedup :
    (∀ (st : HookState) (s : Stroke) (ps : PartialStroke),
       ps ∈ (onCompleteStrokeHook st s).remotePartialStrokes →
       ps.strokeId ≠ s.id) ∧
    (∀ (sys : SysState) (ps : PartialStroke),
       sys.hook.processedPartialStrokeIds.contains (updateIdOf ps) = true →
       deliver sys (NetEvent.partialStrokeEvt ps) = sys) ∧
    (∀ (b : BoardState) (ps : PartialStroke),
       ps.sequence ≤ jsOrNegOne (b.highestSequence.lookup ps.strokeId) →
       applyRemotePartialStroke b ps = b) :=
  ⟨mem_onCompleteStrokeHook_strokeId, deliver_duplicate_update_id,
   applyRemotePartialStroke_stale⟩

/-- Witness for `completion_cleanup_and_dedup` at concrete inputs. -/
theorem completion_cleanup_and_dedup_witness :
    deliver (deliver (initSys "local") (NetEvent.partialStrokeEvt psSampleA))
        (NetEvent.partialStrokeEvt psSampleA)
      = deliver (initSys "local") (NetEvent.partialStrokeEvt psSampleA) ∧
    applyRemotePartialStroke
        { initBoard "local" with highestSequence := [("r-1", 5)] } psSampleA
      = { initBoard "local" with highestSequence := [("r-1", 5)] } :=
  ⟨completion_cleanup_and_dedup.2.1 _ psSampleA (by decide),
   completion_cleanup_and_dedup.2.2 _ psSampleA (by decide)⟩

/-! ## Claim C2 -/

/-- Claim C2: the receiver accepts and paints the sequence-0 partial
`psSampleZero` once on delivery, and then again when the effect re-runs
over the buffer on the next delivery, because the stored highest value 0
is coerced to -1 by `highestSequence.current.get(strokeId) || -1`.  The
rendered state changes twice for one identical (strokeId, sequence)
snapshot, contradicting the strictly-increasing acceptance rule the code
itself documents. -/
theorem seq_zero_reaccepted_eval :
    (deliver (initSys "local")
        (NetEvent.partialStrokeEvt psSampleZero)).board.paintEvents
      = [PaintEvent.partialPaint psSampleZero] ∧
    (deliver (deliver (initSys "local")
        (NetEvent.partialStrokeEvt psSampleZero))
        (NetEvent.partialStrokeEvt psSampleOther)).board.paintEvents
      = [PaintEvent.partialPaint psSampleZero,
         PaintEvent.partialPaint psSampleZero,
         PaintEvent.partialPaint psSampleOther] := by
  decide

/-! ## Claim C3 -/

/-- Claim C3 as stated is false for the order (clear, then stale
partial): a stale in-flight partial for a not-yet-completed id that
arrives after the clear is accepted afresh (all dedup tracking was
reset), so the partial buffer is non-empty and the stale path is painted
onto the just-cleared canvas. -/
theorem clear_then_stale_partial_cex :
    (deliver (deliver (initSys "local") NetEvent.clearEvt)
        (NetEvent.partialStrokeEvt psSampleA)).hook.remotePartialStrokes
      = [psSampleA] ∧
    (deliver (deliver (initSys "local") NetEvent.clearEvt)
        (NetEvent.partialStrokeEvt psSampleA)).board.paintEvents
      = [PaintEvent.partialPaint psSampleA] := by
  decide

/-- Claim C3 amended: applying a clear event empties the completed and
partial collections and every piece of sequence/dedup tracking, clears
the canvas, and aborts an in-progress local gesture to idle without
emitting a complete stroke; consequently the empty outcome is guaranteed
when the stale partial arrives before the clear — but not for the
opposite order. -/
theorem clear_event_postcondition :
    ∀ (sys : SysState) (ps : PartialStroke),
      (deliver sys NetEvent.clearEvt).hook.remoteStrokes = [] ∧
      (deliver sys NetEvent.clearEvt).hook.remotePartialStrokes = [] ∧
      (deliver sys NetEvent.clearEvt).hook.processedPartialStrokeIds = [] ∧
      (deliver sys NetEvent.clearEvt).board.highestSequence = [] ∧
      (deliver sys NetEvent.clearEvt).board.paintEvents = [] ∧
      (deliver sys NetEvent.clearEvt).board.isDrawing = false ∧
      (deliver sys NetEvent.clearEvt).board.currentStroke = [] ∧
      (deliver sys NetEvent.clearEvt).board.emittedStrokes
        = sys.board.emittedStrokes ∧
      (deliver (deliver sys (NetEvent.partialStrokeEvt ps))
          NetEvent.clearEvt).hook.remotePartialStrokes = [] ∧
      (deliver (deliver sys (NetEvent.partialStrokeEvt ps))
          NetEvent.clearEvt).board.paintEvents = [] := by
  intro sys ps
  exact ⟨rfl, rfl, rfl, rfl, rfl, rfl, rfl, rfl, rfl, rfl⟩

/-! ## Claim C4 -/

/-- Helper: `sendPartialStroke` written as a single conditional with the
let-bindings of the definition expanded. -/
theorem sendPartialStroke_eq (b : BoardState) (now : Int) :
    sendPartialStroke b now =
      if ¬ b.isDrawing ∨ b.currentStroke.length < 2 then (b, none)
      else if now - b.lastPartialStrokeSentTime < b.syncInterval then (b, none)
      else
        ({ b with
             lastPartialStrokeSentTime := now
             sequenceNumber := b.sequenceNumber + 1 },
         some { strokeId := b.currentStrokeId
                points := b.currentStroke
                brushColor := b.brushColor
                brushSize := b.brushSize
                lineCap := b.lineCap
                userId := b.userId
                timestamp := now
                sequence := b.sequenceNumber + 1
                isEraser := b.isEraser }) := rfl

/-- Helper: everything `sendPartialStroke` guarantees about an emitted
snapshot. -/
theorem sendPartialStroke_emit (b : BoardState) (now : Int) (ps : PartialStroke)
    (h : (sendPartialStroke b now).2 = some ps) :
    ps.sequence = b.sequenceNumber + 1 ∧
    ps.points = b.currentStroke ∧
    2 ≤ ps.points.length ∧
    ps.strokeId = b.currentStrokeId ∧
    (sendPartialStroke b now).1
      = { b with
            lastPartialStrokeSentTime := now
            sequenceNumber := b.sequenceNumber + 1 } := by
  rw [sendPartialStroke_eq] at h ⊢
  split_ifs at h ⊢ with h1 h2
  push_neg at h1
  dsimp only at h
  rw [Option.some.injEq] at h
  subst h
  exact ⟨rfl, rfl, h1.2, rfl, rfl⟩

/-- Helper: when `sendPartialStroke` emits nothing, the component state
is left exactly as it was (a dropped emission is not queued). -/
theorem sendPartialStroke_drop (b : BoardState) (now : Int)
    (h : (sendPartialStroke b now).2 = none) :
    (sendPartialStroke b now).1 = b := by
  rw [sendPartialStroke_eq] at h ⊢
  split_ifs at h ⊢ <;> rfl

/-- Helper: the board `draw` hands to the throttled emitter — the
segment painted and `lastPosition` advanced, with `currentStroke` still
the pre-append list that the emitter's render closed over. -/
def drawPainted (b : BoardState) (coord : Point) : BoardState :=
  { b with
      paintEvents :=
        b.paintEvents ++ [PaintEvent.localSegment b.lastPosition coord b.isEraser]
      lastPosition := coord }

/-- Helper: `draw` unfolded through `drawPainted`. -/
theorem draw_eq (b : BoardState) (now : Int) (coord : Point) :
    draw b now coord =
      if b.disabled ∨ ¬ b.isDrawing then (b, none)
      else
        ({ (sendPartialStroke (drawPainted b coord) now).1 with
             currentStroke := b.currentStroke ++ [coord] },
         (sendPartialStroke (drawPainted b coord) now).2) := rfl

/-- Helper: a `draw` call that emits nothing leaves the sequence counter
and the throttle reference untouched. -/
theorem draw_drop_fields (b : BoardState) (now : Int) (coord : Point)
    (h : (draw b now coord).2 = none) :
    (draw b now coord).1.sequenceNumber = b.sequenceNumber ∧
    (draw b now coord).1.lastPartialStrokeSentTime
      = b.lastPartialStrokeSentTime := by
  rw [draw_eq] at h ⊢
  split_ifs at h ⊢
  · exact ⟨rfl, rfl⟩
  · dsimp only at h ⊢
    rw [sendPartialStroke_drop _ now h]
    exact ⟨rfl, rfl⟩

/-- Claim C4 as stated is false: in the gesture started at time 100, the
first `draw` emits nothing (only one accumulated point is visible to the
throttled emitter), and the first emitted snapshot — produced by the
second `draw`, well outside the 50 ms throttle window — carries
sequence 1, not 0, because the counter is pre-incremented before the
snapshot is built. -/
theorem first_emitted_sequence_is_one_cex :
    (draw (startDrawing (initBoard "u") 100 { x := 0, y := 0 }) 110
        { x := 1, y := 1 }).2 = none ∧
    ((draw (draw (startDrawing (initBoard "u") 100 { x := 0, y := 0 }) 110
        { x := 1, y := 1 }).1 120 { x := 2, y := 2 }).2.map
          (fun p => p.sequence)) = some 1 ∧
    ¬ ((draw (draw (startDrawing (initBoard "u") 100 { x := 0, y := 0 }) 110
        { x := 1, y := 1 }).1 120 { x := 2, y := 2 }).2.map
          (fun p => p.sequence)) = some 0 := by
  decide

/-- Claim C4 amended: `startDrawing` allocates the fresh stroke id
`userId-timestamp` and resets the sequence counter to 0; each emitted
snapshot carries `sequence = counter + 1` and stores that value back,
and a call that emits nothing leaves the counter untouched — so the
sequence values emitted for one strokeId are 1, 2, 3, …: strictly
increasing and non-negative, but starting at 1, not at 0. -/
theorem sequence_counter_reset_and_increment :
    (∀ (b : BoardState) (now : Int) (coord : Point),
       b.disabled = false →
       (startDrawing b now coord).sequenceNumber = 0 ∧
       (startDrawing b now coord).currentStrokeId
         = b.userId ++ "-" ++ toString now ∧
       (startDrawing b now coord).isDrawing = true ∧
       (startDrawing b now coord).currentStroke = [coord]) ∧
    (∀ (b : BoardState) (now : Int) (ps : PartialStroke),
       (sendPartialStroke b now).2 = some ps →
       ps.sequence = b.sequenceNumber + 1 ∧
       (sendPartialStroke b now).1.sequenceNumber = b.sequenceNumber + 1) ∧
    (∀ (b : BoardState) (now : Int),
       (sendPartialStroke b now).2 = none →
       (sendPartialStroke b now).1.sequenceNumber = b.sequenceNumber) ∧
    (∀ (b : BoardState) (now : Int) (coord : Point),
       (draw b now coord).2 = none →
       (draw b now coord).1.sequenceNumber = b.sequenceNumber) := by
  refine ⟨?_, ?_, ?_, ?_⟩
  · intro b now coord hd
    simp [startDrawing, hd]
  · intro b now ps h
    obtain ⟨hseq, -, -, -, hst⟩ := sendPartialStroke_emit b now ps h
    exact ⟨hseq, by rw [hst]⟩
  · intro b now h
    rw [sendPartialStroke_drop b now h]
  · intro b now coord h
    exact (draw_drop_fields b now coord h).1

/-- Witness for `sequence_counter_reset_and_increment` at concrete
inputs. -/
theorem sequence_counter_reset_and_increment_witness :
    (startDrawing (initBoard "u") 100 { x := 0, y := 0 }).sequenceNumber = 0 ∧
    emittedSample.sequence = sampleDrawingBoard.sequenceNumber + 1 ∧
    (sendPartialStroke sampleDrawingBoard 10).1.sequenceNumber
      = sampleDrawingBoard.sequenceNumber :=
  ⟨(sequence_counter_reset_and_increment.1 _ 100 _ (by decide)).1,
   (sequence_counter_reset_and_increment.2.1 sampleDrawingBoard 50
      emittedSample (by decide)).1,
   sequence_counter_reset_and_increment.2.2.1 sampleDrawingBoard 10 (by decide)⟩

/-! ## Claim C5 -/

/-- Claim C5 confirmed: during a gesture with at least two visible
points, an emission attempt with `now - lastSent < syncInterval` is
dropped and the whole component state is left unchanged (not queued, not
deferred); an attempt at or beyond the interval emits and moves the
throttle reference to `now` (the window is measured from the last
emission, not from a fixed clock); and the default interval is 50 ms. -/
theorem throttled_emission_spec :
    (∀ (b : BoardState) (now : Int),
       now - b.lastPartialStrokeSentTime < b.syncInterval →
       sendPartialStroke b now = (b, none)) ∧
    (∀ (b : BoardState) (now : Int),
       b.isDrawing = true → 2 ≤ b.currentStroke.length →
       b.syncInterval ≤ now - b.lastPartialStrokeSentTime →
       (sendPartialStroke b now).2.isSome = true ∧
       (sendPartialStroke b now).1.lastPartialStrokeSentTime = now) ∧
    (∀ (b : BoardState) (now : Int),
       (sendPartialStroke b now).2 = none → (sendPartialStroke b now).1 = b) ∧
    (∀ (b : BoardState) (now : Int) (coord : Point),
       (draw b now coord).2 = none →
       (draw b now coord).1.lastPartialStrokeSentTime
         = b.lastPartialStrokeSentTime) ∧
    defaultSyncInterval = 50 ∧
    (∀ uid : String, (initBoard uid).syncInterval = 50) := by
  refine ⟨?_, ?_, ?_, ?_, rfl, fun _ => rfl⟩
  · intro b now h
    rw [sendPartialStroke_eq]
    split_ifs with h1 <;> rfl
  · intro b now h1 h2 h3
    rw [sendPartialStroke_eq]
    split_ifs with hg ht
    · rcases hg with hg | hg
      · exact absurd h1 hg
      · omega
    · omega
    · exact ⟨rfl, rfl⟩
  · intro b now h
    exact sendPartialStroke_drop b now h
  · intro b now coord h
    exact (draw_drop_fields b now coord h).2

/-- Witness for `throttled_emission_spec` at concrete inputs: at 10 ms
since the last emission the attempt is dropped with the state unchanged,
at 50 ms it emits and resets the window. -/
theorem throttled_emission_spec_witness :
    sendPartialStroke sampleDrawingBoard 10 = (sampleDrawingBoard, none) ∧
    (sendPartialStroke sampleDrawingBoard 50).2.isSome = true ∧
    (sendPartialStroke sampleDrawingBoard 50).1.lastPartialStrokeSentTime = 50 :=
  ⟨throttled_emission_spec.1 sampleDrawingBoard 10 (by decide),
   (throttled_emission_spec.2.1 sampleDrawingBoard 50 (by decide) (by decide)
      (by decide)).1,
   (throttled_emission_spec.2.1 sampleDrawingBoard 50 (by decide) (by decide)
      (by decide)).2⟩

/-! ## Claim C6 -/

/-- Claim C6 as stated is false twice over.  At an elapsed time of
exactly the 50 ms interval, `sendCursorPosition` (strict `>`) drops the
send while the partial-stroke throttle (`<` … return) emits, so the two
accept/drop decisions differ at the boundary.  And in the reachable
connection state produced by `SUBSCRIBED` followed by `CHANNEL_ERROR`
the status is `disconnected` while the `isConnected` flag is still true,
and `sendCursorPosition` sends there. -/
theorem cursor_throttle_boundary_cex :
    (sendCursorPosition
        { isConnected := true, connectionStatus := ConnectionStatus.connected,
          lastCursorSentTime := 0, cursorSyncInterval := 50 }
        50 { x := 0, y := 0, userId := "u" }).2 = none ∧
    (sendPartialStroke sampleDrawingBoard 50).2.isSome = true ∧
    connReach [ConnEvent.subscribed, ConnEvent.channelError]
      = { isConnected := true,
          connectionStatus := ConnectionStatus.disconnected,
          lastCursorSentTime := 0, cursorSyncInterval := 50 } ∧
    (sendCursorPosition (connReach [ConnEvent.subscribed, ConnEvent.channelError])
        60 { x := 0, y := 0, userId := "u" }).2
      = some { x := 0, y := 0, userId := "u" } := by
  decide

/-- Claim C6 amended: `sendCursorPosition` is throttled from the time of
the last send like partial-stroke emission, except that at exactly the
interval boundary it drops (it sends only when the elapsed time strictly
exceeds the interval); it is a no-op whenever the `isConnected` flag is
false — but a channel error only sets the status to `disconnected` and
leaves `isConnected` untouched, so sends continue in that state. -/
theorem cursor_send_behaviour :
    (∀ (c : ConnState) (now : Int) (pos : CursorPosition),
       c.isConnected = false → sendCursorPosition c now pos = (c, none)) ∧
    (∀ (c : ConnState) (now : Int) (pos : CursorPosition),
       c.isConnected = true →
       now - c.lastCursorSentTime ≤ c.cursorSyncInterval →
       sendCursorPosition c now pos = (c, none)) ∧
    (∀ (c : ConnState) (now : Int) (pos : CursorPosition),
       c.isConnected = true →
       c.cursorSyncInterval < now - c.lastCursorSentTime →
       sendCursorPosition c now pos
         = ({ c with lastCursorSentTime := now }, some pos)) ∧
    (∀ c : ConnState,
       (connStep c ConnEvent.channelError).isConnected = c.isConnected ∧
       (connStep c ConnEvent.channelError).connectionStatus
         = ConnectionStatus.disconnected) := by
  refine ⟨?_, ?_, ?_, fun c => ⟨rfl, rfl⟩⟩
  · intro c now pos h
    simp [sendCursorPosition, h]
  · intro c now pos h1 h2
    have ht : ¬ (c.cursorSyncInterval < now - c.lastCursorSentTime) := by omega
    simp [sendCursorPosition, h1, ht]
  · intro c now pos h1 h2
    simp [sendCursorPosition, h1, h2]

/-- Witness for `cursor_send_behaviour` at concrete inputs. -/
theorem cursor_send_behaviour_witness :
    sendCursorPosition initConnState 100 { x := 0, y := 0, userId := "u" }
      = (initConnState, none) ∧
    sendCursorPosition
        { isConnected := true, connectionStatus := ConnectionStatus.connected,
          lastCursorSentTime := 0, cursorSyncInterval := 50 }
        51 { x := 0, y := 0, userId := "u" }
      = ({ isConnected := true, connectionStatus := ConnectionStatus.connected,
           lastCursorSentTime := 51, cursorSyncInterval := 50 },
         some { x := 0, y := 0, userId := "u" }) :=
  ⟨cursor_send_behaviour.1 initConnState 100 _ (by decide),
   cursor_send_behaviour.2.2.1 _ 51 _ (by decide) (by decide)⟩

/-! ## Claim C7 -/

/-- Claim C7 as stated is false: the page state reached by `SUBSCRIBED`,
a clear press, then `CHANNEL_ERROR` has status `disconnected` with the
grace flag set, and pressing clear there is not a no-op — the guard is
`connectionStatus !== 'connected' && !justCleared`, so the set grace
flag lets the clear proceed (and, the `isConnected` flag still being
true, even broadcast and delete). -/
theorem clear_guard_grace_cex :
    pageReach [PageEvent.subscribed, PageEvent.clearPressed,
        PageEvent.channelError]
      = { connectionStatus := ConnectionStatus.disconnected,
          isConnected := true,
          justCleared := true,
          clearActions := [ClearAction.localClear,
            ClearAction.clearRemotePartials, ClearAction.broadcastClear,
            ClearAction.dbDelete] } ∧
    clearCanvasPage (pageReach [PageEvent.subscribed, PageEvent.clearPressed,
        PageEvent.channelError])
      ≠ pageReach [PageEvent.subscribed, PageEvent.clearPressed,
          PageEvent.channelError] := by
  decide

/-- Claim C7 amended: `clearCanvas()` is a no-op exactly when the canvas
is disabled, i.e. when the status is not `connected` and the post-clear
grace flag is unset; whenever the grace flag is set the guard passes and
the clear proceeds (local clear and partial-tracking reset, plus
broadcast and persistence delete when the `isConnected` flag is set),
even while the status is `connecting` or `disconnected`. -/
theorem clear_guard_disabled_noop :
    (∀ p : PageState, isCanvasDisabled p = true → clearCanvasPage p = p) ∧
    (∀ p : PageState,
       isCanvasDisabled p = true ↔
         (p.connectionStatus ≠ ConnectionStatus.connected ∧
          p.justCleared = false)) ∧
    (∀ p : PageState, p.justCleared = true → clearCanvasPage p ≠ p) := by
  refine ⟨?_, ?_, ?_⟩
  · intro p h
    simp [clearCanvasPage, h]
  · intro p
    simp [isCanvasDisabled]
  · intro p h heq
    have hd : ¬ isCanvasDisabled p = true := by
      simp [isCanvasDisabled, h]
    have hlen := congrArg (fun q : PageState => q.clearActions.length) heq
    simp only [clearCanvasPage, if_neg hd] at hlen
    cases hc : p.isConnected <;> simp [hc, List.length_append] at hlen

/-- Witness for `clear_guard_disabled_noop` at concrete inputs. -/
theorem clear_guard_disabled_noop_witness :
    clearCanvasPage initPageState = initPageState ∧
    clearCanvasPage (pageReach [PageEvent.subscribed, PageEvent.clearPressed,
        PageEvent.channelError])
      ≠ pageReach [PageEvent.subscribed, PageEvent.clearPressed,
          PageEvent.channelError] :=
  ⟨clear_guard_disabled_noop.1 initPageState (by decide),
   clear_guard_disabled_noop.2.2 _ (by decide)⟩

/-! ## Claim C8 -/

/-- Claim C8 as stated is false: the `stroke` handler appends
unconditionally, so delivering the same complete stroke twice leaves the
committed collection with two entries, not one. -/
theorem duplicate_complete_double_append_cex :
    (onCompleteStrokeHook (onCompleteStrokeHook initHook strokeSample)
        strokeSample).remoteStrokes = [strokeSample, strokeSample] ∧
    ¬ (onCompleteStrokeHook (onCompleteStrokeHook initHook strokeSample)
        strokeSample).remoteStrokes
      = (onCompleteStrokeHook initHook strokeSample).remoteStrokes := by
  decide

/-- Claim C8 amended: every delivered complete stroke is appended to the
committed collection, even when a stroke with the same id is already
present — there is no in-memory dedup of complete strokes; each delivery
also removes every buffered partial carrying that id. -/
theorem complete_stroke_always_appends :
    (∀ (sys : SysState) (s : Stroke),
       (deliver sys (NetEvent.strokeEvt s)).hook.remoteStrokes
         = sys.hook.remoteStrokes ++ [s]) ∧
    (∀ (st : HookState) (s : Stroke) (ps : PartialStroke),
       ps ∈ (onCompleteStrokeHook st s).remotePartialStrokes →
       ps.strokeId ≠ s.id) :=
  ⟨fun _ _ => rfl, mem_onCompleteStrokeHook_strokeId⟩

/-- Witness for `complete_stroke_always_appends` at concrete inputs. -/
theorem complete_stroke_always_appends_witness :
    (deliver (initSys "local") (NetEvent.strokeEvt strokeSample)).hook.remoteStrokes
      = (initSys "local").hook.remoteStrokes ++ [strokeSample] ∧
    psSampleOther.strokeId ≠ strokeSample.id :=
  ⟨complete_stroke_always_appends.1 (initSys "local") strokeSample,
   complete_stroke_always_appends.2
     { remoteStrokes := [], remotePartialStrokes := [psSampleOther],
       processedPartialStrokeIds := [] }
     strokeSample psSampleOther (by decide)⟩

/-! ## Claim C9 -/

/-- Helper: each paint site's commands stroke exactly once, with the
mode derived from the site's own `isEraser` flag, regardless of the
context state it starts from. -/
theorem execCmds_siteCmds_painted (c : CtxState) (s : PaintSite) :
    (execCmds c (siteCmds s)).painted = c.painted ++ [siteOp s] := by
  cases s <;> rfl

/-- Helper: over any sequence of paint sites, the modes actually used to
paint are exactly each site's own mode — no mode ever leaks from one
stroke into the painting of the next. -/
theorem runSites_painted (c : CtxState) (sites : List PaintSite) :
    (runSites c sites).painted = c.painted ++ sites.map siteOp := by
  induction sites generalizing c with
  | nil => simp [runSites]
  | cons s rest ih =>
    have h1 : runSites c (s :: rest)
        = runSites (execCmds c (siteCmds s)) rest := rfl
    rw [h1, ih, execCmds_siteCmds_painted]
    simp

/-- Claim C9 as stated is false for local gesture segments: `draw` sets
the compositing mode without a surrounding save/restore, so after a
local eraser segment is painted the context mode is `destination-out`,
not the restored default. -/
theorem local_draw_mode_not_restored_cex :
    (execCmds initCtx (localDrawCmds true)).op = CompOp.destinationOut ∧
    ¬ (execCmds initCtx (localDrawCmds true)).op = CompOp.sourceOver := by
  decide

/-- Claim C9 amended: the remote-stroke and remote-partial paint sites
select the mode per stroke from `isEraser` and restore the previous
context state via save/restore; the local `draw` site selects the mode
per segment but leaves it set afterwards instead of restoring it.
Because every site sets the mode from its own stroke before stroking,
no stroke is ever painted with a mode leaked from a previous stroke. -/
theorem per_stroke_composite_mode :
    (∀ (c : CtxState) (e : Bool),
       (execCmds c (remoteStrokeCmds e)).op = c.op ∧
       (execCmds c (remoteStrokeCmds e)).stack = c.stack ∧
       (execCmds c (remoteStrokeCmds e)).painted = c.painted ++ [opOfEraser e]) ∧
    (∀ (c : CtxState) (e : Bool),
       (execCmds c (remotePartialCmds e)).op = c.op ∧
       (execCmds c (remotePartialCmds e)).stack = c.stack ∧
       (execCmds c (remotePartialCmds e)).painted = c.painted ++ [opOfEraser e]) ∧
    (∀ (c : CtxState) (e : Bool),
       (execCmds c (localDrawCmds e)).op = opOfEraser e ∧
       (execCmds c (localDrawCmds e)).painted = c.painted ++ [opOfEraser e]) ∧
    (∀ sites : List PaintSite,
       (runSites initCtx sites).painted = sites.map siteOp) :=
  ⟨fun _ _ => ⟨rfl, rfl, rfl⟩,
   fun _ _ => ⟨rfl, rfl, rfl⟩,
   fun _ _ => ⟨rfl, rfl⟩,
   fun sites => by rw [runSites_painted]; rfl⟩

/-! ## Claim C10 -/

/-- Claim C10 confirmed: every snapshot the throttled emitter hands to
`onPartialStroke` carries at least two points (the guard rejects shorter
gestures before any snapshot is built, both for a direct emitter call
and through `draw`); on the receiving side a partial with fewer than two
points paints nothing, yet — when it is otherwise accepted — it still
advances the per-strokeId sequence tracking. -/
theorem partial_two_point_guarantee :
    (∀ (b : BoardState) (now : Int) (ps : PartialStroke),
       (sendPartialStroke b now).2 = some ps → 2 ≤ ps.points.length) ∧
    (∀ (b : BoardState) (now : Int) (coord : Point) (ps : PartialStroke),
       (draw b now coord).2 = some ps → 2 ≤ ps.points.length) ∧
    (∀ (b : BoardState) (ps : PartialStroke),
       ps.points.length < 2 →
       (applyRemotePartialStroke b ps).paintEvents = b.paintEvents) ∧
    (∀ (b : BoardState) (ps : PartialStroke),
       ps.userId ≠ b.userId →
       jsOrNegOne (b.highestSequence.lookup ps.strokeId) < ps.sequence →
       (applyRemotePartialStroke b ps).highestSequence
         = mapSet b.highestSequence ps.strokeId ps.sequence) := by
  refine ⟨?_, ?_, ?_, ?_⟩
  · intro b now ps h
    exact (sendPartialStroke_emit b now ps h).2.2.1
  · intro b now coord ps h
    rw [draw_eq] at h
    split_ifs at h
    dsimp only at h
    exact (sendPartialStroke_emit _ now ps h).2.2.1
  · intro b ps h
    rw [applyRemotePartialStroke_eq]
    split_ifs with h1 h2 h3
    · rfl
    · rfl
    · omega
    · rfl
  · intro b ps h1 h2
    rw [applyRemotePartialStroke_eq]
    rw [if_neg h1, if_neg (by omega)]
    split_ifs <;> rfl

/-- Witness for `partial_two_point_guarantee` at concrete inputs. -/
theorem partial_two_point_guarantee_witness :
    2 ≤ emittedSample.points.length ∧
    (applyRemotePartialStroke (initBoard "local") psOnePoint).paintEvents
      = (initBoard "local").paintEvents ∧
    (applyRemotePartialStroke (initBoard "local") psOnePoint).highestSequence
      = mapSet (initBoard "local").highestSequence psOnePoint.strokeId
          psOnePoint.sequence :=
  ⟨partial_two_point_guarantee.1 sampleDrawingBoard 50 emittedSample (by decide),
   partial_two_point_guarantee.2.2.1 (initBoard "local") psOnePoint (by decide),
   partial_two_point_guarantee.2.2.2 (initBoard "local") psOnePoint (by decide)
     (by decide)⟩
